import Mathlib

/-!
Verification of the ESG metrics consolidation and document-retrieval pipeline
(`src/agents/esg_crew.py`, `src/utils/document_loader.py`).

The pipeline's decision logic is embedded shallowly:
* `ESGAnalysisCrew.run` and its fallback `createBasicMetricsStructure`
  (from `src/agents/esg_crew.py`),
* `DocumentIndexer.index_documents`, `DocumentIndexer.initialize_vectorstore`
  and the text-splitter configuration (from `src/utils/document_loader.py`),
* the consolidation merge policy and the nearest-neighbour retrieval, which
  the source delegates to external capabilities (an LLM agent and the Chroma
  vector store) and which are therefore modelled from the specification.
-/

/-- A JSON-like value, the shape of the data the crew returns and of the
taxonomy handed to the spreadsheet renderer. -/
inductive Json where
  | str : String → Json
  | arr : List Json → Json
  | obj : List (String × Json) → Json

/-- The raw result of `self.crew.kickoff(...)` as observed by
`ESGAnalysisCrew.run`: either a Python `dict` (the `isinstance(result, dict)`
branch) or any non-dict value, carried here as its textual rendering. -/
inductive CrewOutput where
  | dict : List (String × Json) → CrewOutput
  | nondict : String → CrewOutput

/-- `ESGAnalysisCrew._create_basic_metrics_structure` from
`src/agents/esg_crew.py`: the literal fallback taxonomy. -/
def createBasicMetricsStructure : List (String × Json) :=
  [("Environmental", Json.obj [("Energy",
      Json.arr [Json.obj [("name", Json.str "Total Energy Consumption"),
                          ("unit", Json.str "kWh")]])]),
   ("Social", Json.obj [("Employees",
      Json.arr [Json.obj [("name", Json.str "Total Employees"),
                          ("unit", Json.str "count")]])]),
   ("Governance", Json.obj [("Board",
      Json.arr [Json.obj [("name", Json.str "Board Diversity"),
                          ("unit", Json.str "%")]])])]

/-- `ESGAnalysisCrew.run` from `src/agents/esg_crew.py`: if the crew result is
a dict it is returned unchanged; otherwise a warning is printed and the fixed
fallback structure is returned.  The function is total: neither branch raises. -/
def ESGAnalysisCrew.run (crewResult : CrewOutput) : List (String × Json) :=
  match crewResult with
  | CrewOutput.dict d => d
  | CrewOutput.nondict _ => createBasicMetricsStructure

/-- All metric records stored under one category value of a taxonomy:
the concatenation of the subcategory arrays. -/
def metricsOfCategory : Json → List Json
  | Json.obj subcats =>
      subcats.foldr (fun p acc =>
        (match p.2 with | Json.arr ms => ms | _ => []) ++ acc) []
  | _ => []

/-- The field names of a JSON object (of a metric record). -/
def jsonFieldNames : Json → List String
  | Json.obj fs => fs.map Prod.fst
  | _ => []

/-- C1: whenever the consolidation output cannot be parsed as a dict,
`ESGAnalysisCrew.run` returns (never raises: the function is total) the
fallback taxonomy, whose top-level categories are exactly Environmental,
Social, Governance — in particular it is non-empty — and each category
holds exactly one sample metric. -/
theorem run_fallback_taxonomy (raw : String) :
    ESGAnalysisCrew.run (CrewOutput.nondict raw) = createBasicMetricsStructure ∧
    (ESGAnalysisCrew.run (CrewOutput.nondict raw)).map Prod.fst =
      ["Environmental", "Social", "Governance"] ∧
    (ESGAnalysisCrew.run (CrewOutput.nondict raw)).map
      (fun p => (metricsOfCategory p.2).length) = [1, 1, 1] :=
  ⟨rfl, rfl, rfl⟩

/-- C9: any dict-typed crew result is returned unchanged by
`ESGAnalysisCrew.run`, with no validation of its shape; in particular the
empty dict is returned as-is and does not trigger the fallback. -/
theorem run_dict_passthrough (d : List (String × Json)) :
    ESGAnalysisCrew.run (CrewOutput.dict d) = d ∧
    ESGAnalysisCrew.run (CrewOutput.dict []) = [] :=
  ⟨rfl, rfl⟩

/-- C6 counterexample: on a consolidation failure the substituted result is
exactly the fixed fallback structure, whose keys are the three category names
only — it contains no status flag of any kind, so the fallback's use is not
observable in the returned value. -/
theorem run_no_status_flag_counterexample :
    ESGAnalysisCrew.run (CrewOutput.nondict "unparseable") =
      createBasicMetricsStructure ∧
    (ESGAnalysisCrew.run (CrewOutput.nondict "unparseable")).map Prod.fst =
      ["Environmental", "Social", "Governance"] :=
  ⟨rfl, rfl⟩

/-- C6 amended: when the crew output is not a dict, `ESGAnalysisCrew.run`
never propagates the failure — it returns normally with the fallback — but
the fallback's use is signalled only as console text: the returned value is
the fixed fallback structure, whose keys are exactly the three category
names, with no status flag. -/
theorem run_fallback_not_observable (raw : String) :
    ESGAnalysisCrew.run (CrewOutput.nondict raw) = createBasicMetricsStructure ∧
    (ESGAnalysisCrew.run (CrewOutput.nondict raw)).map Prod.fst =
      ["Environmental", "Social", "Governance"] :=
  ⟨rfl, rfl⟩

/-- C7 counterexample: each metric record of the fallback taxonomy returned
after a consolidation failure carries exactly the two fields `name` and
`unit` — not the five fields `name`, `description`, `unit`, `frequency`,
`data_type` the claim asserts. -/
theorem fallback_metric_fields_counterexample :
    ((ESGAnalysisCrew.run (CrewOutput.nondict "unparseable")).map
        (fun p => (metricsOfCategory p.2).map jsonFieldNames)) =
      [[["name", "unit"]], [["name", "unit"]], [["name", "unit"]]] :=
  rfl

/-- C7 amended: every metric record of the fallback taxonomy carries exactly
the fields `name` and `unit`; the five-field record shape is not enforced on
the core's output. -/
theorem fallback_metric_fields (raw : String) :
    ((ESGAnalysisCrew.run (CrewOutput.nondict raw)).map
        (fun p => (metricsOfCategory p.2).map jsonFieldNames)) =
      [[["name", "unit"]], [["name", "unit"]], [["name", "unit"]]] :=
  rfl

deriving instance DecidableEq for Except

/-- One file in a corpus directory: its name and the outcome of parsing it
(`PyPDFLoader`); a failing parse carries its error message.  The parsed text
is the document's character content. -/
structure FileEntry where
  name : String
  parsed : Except String (List Char)
deriving DecidableEq

/-- The directory contents the loaders see: directory path → files. -/
abbrev Filesystem := List (String × List FileEntry)

/-- The glob `"**/*.pdf"` passed to both `DirectoryLoader`s in
`DocumentIndexer.index_documents`: a file is selected exactly when its name
ends in `.pdf`, at any depth. -/
def matchesPdfGlob (n : String) : Bool := List.isSuffixOf ".pdf".toList n.toList

/-- The fixed regulations directory hard-coded in
`DocumentIndexer.index_documents`. -/
def regulationsDir : String := "./data/regulations"

/-- The fixed frameworks directory hard-coded in
`DocumentIndexer.index_documents`. -/
def frameworksDir : String := "./data/frameworks"

/-- Loading a list of selected files in order: the first parse failure
propagates (the `DirectoryLoader` default raises on a loader error; the
source wraps nothing in a handler), otherwise all parsed documents are
returned. -/
def loadEntries : List FileEntry → Except String (List (List Char))
  | [] => Except.ok []
  | e :: es =>
      match e.parsed with
      | Except.error msg => Except.error msg
      | Except.ok d => (loadEntries es).map (fun ds => d :: ds)

/-- The files a directory path holds, empty when the path is absent. -/
def lookupDir : Filesystem → String → Option (List FileEntry)
  | [], _ => none
  | (k, v) :: rest, dir => if k = dir then some v else lookupDir rest dir

/-- `DirectoryLoader(dir, glob="**/*.pdf", loader_cls=PyPDFLoader).load()`:
select the files of `dir` matching the glob, then parse each in turn. -/
def DirectoryLoader.load (fs : Filesystem) (dir : String) :
    Except String (List (List Char)) :=
  loadEntries (((lookupDir fs dir).getD []).filter (fun e => matchesPdfGlob e.name))

/-- `chunk_size=1000` from the `RecursiveCharacterTextSplitter` configuration
in `DocumentIndexer.index_documents`. -/
def chunk_size : Nat := 1000

/-- `chunk_overlap=200` from the `RecursiveCharacterTextSplitter`
configuration in `DocumentIndexer.index_documents`. -/
def chunk_overlap : Nat := 200

/-- Modelled from the spec: the chunking rule of the external
`RecursiveCharacterTextSplitter` (its implementation lives in the langchain
library, not in this repository) — emit windows of `chunk_size` characters
advancing by `chunk_size - chunk_overlap`, so neighbouring chunks share
`chunk_overlap` characters.  `fuel` bounds the recursion; `splitText`
supplies enough fuel for any input. -/
def splitTextGo : Nat → List Char → List (List Char)
  | 0, t => [t]
  | fuel + 1, t =>
      if t.length ≤ chunk_size then [t]
      else t.take chunk_size :: splitTextGo fuel (t.drop (chunk_size - chunk_overlap))

/-- Splitting one document's text, with the source's configured size and
overlap. -/
def splitText (t : List Char) : List (List Char) :=
  splitTextGo t.length t

/-- `Store` models the built Chroma vector store: the chunk corpus it holds
(each chunk embedded once). -/
structure Store where
  chunks : List (List Char)
deriving DecidableEq

/-- `DocumentIndexer.index_documents` from `src/utils/document_loader.py`:
load the two fixed directories with the pdf glob, split every loaded
document, and build the vector store from all chunks.  The function takes no
corpus-path parameter; any loader failure propagates unhandled. -/
def DocumentIndexer.index_documents (fs : Filesystem) : Except String Store :=
  match DirectoryLoader.load fs regulationsDir with
  | Except.error e => Except.error e
  | Except.ok reg =>
      match DirectoryLoader.load fs frameworksDir with
      | Except.error e => Except.error e
      | Except.ok fw => Except.ok ⟨((reg ++ fw).map splitText).flatten⟩

/-- `DocumentIndexer._initialize_vectorstore` from
`src/utils/document_loader.py`: if a persisted store exists it is loaded
verbatim (no corpus embedding happens), otherwise `index_documents` builds
one, embedding every chunk, and persists it.  The result carries the handle,
the new persisted state, and the number of chunk embeddings computed. -/
def DocumentIndexer.initialize_vectorstore (persisted : Option Store)
    (fs : Filesystem) : Except String (Store × Option Store × Nat) :=
  match persisted with
  | some s => Except.ok (s, some s, 0)
  | none =>
      match DocumentIndexer.index_documents fs with
      | Except.error e => Except.error e
      | Except.ok st => Except.ok (st, some st, st.chunks.length)

/-- Whether a file entry parses. -/
def entryParses (e : FileEntry) : Bool :=
  match e.parsed with
  | Except.ok _ => true
  | Except.error _ => false

/-- The glob-selected files of the two fixed corpus directories. -/
def pdfEntries (fs : Filesystem) : List FileEntry :=
  ((lookupDir fs regulationsDir).getD []).filter (fun e => matchesPdfGlob e.name) ++
  ((lookupDir fs frameworksDir).getD []).filter (fun e => matchesPdfGlob e.name)

/-- Whether an `Except` computation succeeded. -/
def exceptIsOk {ε α : Type} : Except ε α → Bool
  | Except.ok _ => true
  | Except.error _ => false

theorem loadEntries_isOk (es : List FileEntry) :
    exceptIsOk (loadEntries es) = es.all entryParses := by
  induction es with
  | nil => rfl
  | cons e es ih =>
      cases he : e.parsed with
      | error msg => simp [loadEntries, he, entryParses, exceptIsOk]
      | ok d =>
          cases hes : loadEntries es with
          | error m =>
              rw [hes] at ih
              simp only [exceptIsOk] at ih
              simp [loadEntries, he, hes, entryParses, exceptIsOk, Except.map,
                    ← ih]
          | ok ds =>
              rw [hes] at ih
              simp only [exceptIsOk] at ih
              simp [loadEntries, he, hes, entryParses, exceptIsOk, Except.map,
                    ← ih]

/-- C4 counterexample: with one unparseable PDF ahead of a good one,
`index_documents` aborts with the parse error instead of skipping the bad
document and surfacing a warning count; and with no documents at all it
succeeds with an empty store instead of failing with an `IndexBuildError`
(no such error exists anywhere in the repository). -/
theorem index_documents_aborts_counterexample :
    DocumentIndexer.index_documents
        [(regulationsDir,
           [⟨"bad.pdf", Except.error "DocumentParseError: bad.pdf"⟩,
            ⟨"good.pdf", Except.ok ['o', 'k']⟩]),
         (frameworksDir, [])] =
      Except.error "DocumentParseError: bad.pdf" ∧
    DocumentIndexer.index_documents [] = Except.ok ⟨[]⟩ :=
  ⟨rfl, rfl⟩

/-- C4 amended: `index_documents` performs no per-document recovery and no
empty-corpus check — the build succeeds exactly when every glob-selected
file of the two fixed directories parses (so any single parse failure aborts
the whole build, no warning count is surfaced, and an empty corpus still
builds, there being no `IndexBuildError` in the repository). -/
theorem index_documents_ok_iff (fs : Filesystem) :
    exceptIsOk (DocumentIndexer.index_documents fs) =
      (pdfEntries fs).all entryParses := by
  unfold DocumentIndexer.index_documents pdfEntries DirectoryLoader.load
  rw [List.all_append, ← loadEntries_isOk, ← loadEntries_isOk]
  cases h1 : loadEntries (((lookupDir fs regulationsDir).getD []).filter
      (fun e => matchesPdfGlob e.name)) with
  | error m => simp [exceptIsOk]
  | ok reg =>
      cases h2 : loadEntries (((lookupDir fs frameworksDir).getD []).filter
          (fun e => matchesPdfGlob e.name)) with
      | error m => simp [exceptIsOk]
      | ok fw => simp [exceptIsOk]

/-- C5: `_initialize_vectorstore` is a pure cache.  When a persisted store
exists it is returned verbatim with zero chunk embeddings computed; when
none exists the store is built and persisted, and a second call against the
resulting persisted state returns that very store with zero embeddings — so
retrieval against the second handle is retrieval against the same store,
giving identical results for every query. -/
theorem initialize_vectorstore_cache (s : Store) (fs : Filesystem) :
    DocumentIndexer.initialize_vectorstore (some s) fs =
      Except.ok (s, some s, 0) ∧
    (∀ st disk n,
        DocumentIndexer.initialize_vectorstore none fs =
          Except.ok (st, disk, n) →
        disk = some st ∧
        DocumentIndexer.initialize_vectorstore disk fs =
          Except.ok (st, some st, 0)) := by
  refine ⟨rfl, ?_⟩
  intro st disk n h
  unfold DocumentIndexer.initialize_vectorstore at h
  cases hidx : DocumentIndexer.index_documents fs <;> rw [hidx] at h
  · exact absurd h (by simp)
  · simp only [Except.ok.injEq, Prod.mk.injEq] at h
    obtain ⟨h1, h2, h3⟩ := h
    subst h1; subst h2
    exact ⟨rfl, rfl⟩

/-- C5 witness: a concrete one-document corpus.  The first call (no
persisted store) builds and persists a one-chunk store, embedding one chunk;
the second call returns the same store with zero embeddings. -/
theorem initialize_vectorstore_cache_witness :
    DocumentIndexer.initialize_vectorstore none
        [(regulationsDir, [⟨"a.pdf", Except.ok ['h', 'i']⟩]),
         (frameworksDir, [])] =
      Except.ok (⟨[['h', 'i']]⟩, some ⟨[['h', 'i']]⟩, 1) ∧
    DocumentIndexer.initialize_vectorstore (some ⟨[['h', 'i']]⟩)
        [(regulationsDir, [⟨"a.pdf", Except.ok ['h', 'i']⟩]),
         (frameworksDir, [])] =
      Except.ok (⟨[['h', 'i']]⟩, some ⟨[['h', 'i']]⟩, 0) :=
  ⟨rfl,
   ((initialize_vectorstore_cache ⟨[['h', 'i']]⟩
        [(regulationsDir, [⟨"a.pdf", Except.ok ['h', 'i']⟩]),
         (frameworksDir, [])]).2
      ⟨[['h', 'i']]⟩ (some ⟨[['h', 'i']]⟩) 1 rfl).2⟩

/-- C10: index construction reads exactly the two fixed directories — any
two filesystems agreeing on `./data/regulations` and `./data/frameworks`
index identically — and a file whose name does not match the `**/*.pdf`
glob is silently ignored: prepending it to a directory leaves the built
index unchanged. -/
theorem index_documents_fixed_dirs :
    (∀ fs1 fs2 : Filesystem,
        lookupDir fs1 regulationsDir = lookupDir fs2 regulationsDir →
        lookupDir fs1 frameworksDir = lookupDir fs2 frameworksDir →
        DocumentIndexer.index_documents fs1 =
          DocumentIndexer.index_documents fs2) ∧
    (∀ (e : FileEntry) (entries : List FileEntry) (rest : Filesystem),
        matchesPdfGlob e.name = false →
        DocumentIndexer.index_documents ((regulationsDir, e :: entries) :: rest) =
          DocumentIndexer.index_documents ((regulationsDir, entries) :: rest)) := by
  constructor
  · intro fs1 fs2 hreg hfw
    unfold DocumentIndexer.index_documents DirectoryLoader.load
    rw [hreg, hfw]
  · intro e entries rest hpdf
    unfold DocumentIndexer.index_documents DirectoryLoader.load
    have hlk : ∀ v : List FileEntry,
        lookupDir ((regulationsDir, v) :: rest) regulationsDir = some v := by
      intro v; simp [lookupDir]
    have hne : ¬(regulationsDir = frameworksDir) := by decide
    have hfw : ∀ v : List FileEntry,
        lookupDir ((regulationsDir, v) :: rest) frameworksDir =
          lookupDir rest frameworksDir := by
      intro v
      simp only [lookupDir]
      rw [if_neg hne]
    rw [hlk, hlk, hfw, hfw]
    simp [List.filter, hpdf]

/-- C10 witness: concrete filesystems.  A filesystem with an extra unrelated
directory indexes as the one without it, and a `notes.txt` file in the
regulations directory is ignored. -/
theorem index_documents_fixed_dirs_witness :
    DocumentIndexer.index_documents
        [(regulationsDir, []), (frameworksDir, []),
         ("./data/other", [⟨"x.pdf", Except.error "junk"⟩])] =
      DocumentIndexer.index_documents [(regulationsDir, []), (frameworksDir, [])] ∧
    DocumentIndexer.index_documents
        [(regulationsDir, [⟨"notes.txt", Except.error "not a pdf"⟩]),
         (frameworksDir, [])] =
      DocumentIndexer.index_documents [(regulationsDir, []), (frameworksDir, [])] :=
  ⟨index_documents_fixed_dirs.1
      [(regulationsDir, []), (frameworksDir, []),
       ("./data/other", [⟨"x.pdf", Except.error "junk"⟩])]
      [(regulationsDir, []), (frameworksDir, [])] rfl rfl,
   index_documents_fixed_dirs.2
      ⟨"notes.txt", Except.error "not a pdf"⟩ [] [(frameworksDir, [])]
      (by decide)⟩

theorem splitTextGo_length_le (fuel : Nat) :
    ∀ t : List Char,
      t.length ≤ chunk_size + (chunk_size - chunk_overlap) * fuel →
      ∀ c ∈ splitTextGo fuel t, c.length ≤ chunk_size := by
  induction fuel with
  | zero =>
      intro t h c hc
      simp [splitTextGo] at hc
      subst hc
      simpa using h
  | succ fuel ih =>
      intro t h c hc
      by_cases hle : t.length ≤ chunk_size
      · simp [splitTextGo, hle] at hc
        subst hc
        exact hle
      · simp only [splitTextGo, if_neg hle] at hc
        rcases List.mem_cons.mp hc with hc | hc
        · subst hc
          simp [List.length_take]
        · refine ih _ ?_ c hc
          simp only [List.length_drop]
          simp only [chunk_size, chunk_overlap] at h ⊢
          omega

theorem splitTextGo_head (fuel : Nat) (t : List Char)
    (h : t.length ≤ chunk_size + (chunk_size - chunk_overlap) * fuel) :
    ∃ rest, splitTextGo fuel t = t.take chunk_size :: rest := by
  cases fuel with
  | zero =>
      have h' : t.length ≤ chunk_size := by simpa using h
      exact ⟨[], by simp [splitTextGo, List.take_of_length_le h']⟩
  | succ fuel =>
      by_cases hle : t.length ≤ chunk_size
      · exact ⟨[], by simp [splitTextGo, hle, List.take_of_length_le hle]⟩
      · exact ⟨splitTextGo fuel (t.drop (chunk_size - chunk_overlap)),
          by simp only [splitTextGo, if_neg hle]⟩

theorem splitTextGo_chain (fuel : Nat) :
    ∀ t : List Char,
      t.length ≤ chunk_size + (chunk_size - chunk_overlap) * fuel →
      List.Chain' (fun a b =>
        a.drop (chunk_size - chunk_overlap) = b.take chunk_overlap)
        (splitTextGo fuel t) := by
  induction fuel with
  | zero => intro t h; simp [splitTextGo]
  | succ fuel ih =>
      intro t h
      by_cases hle : t.length ≤ chunk_size
      · simp [splitTextGo, hle]
      · have hbound : (t.drop (chunk_size - chunk_overlap)).length ≤
            chunk_size + (chunk_size - chunk_overlap) * fuel := by
          simp only [List.length_drop]
          simp only [chunk_size, chunk_overlap] at h ⊢
          omega
        obtain ⟨rest, hrest⟩ := splitTextGo_head fuel _ hbound
        have hchain := ih _ hbound
        rw [hrest] at hchain
        simp only [splitTextGo, if_neg hle, hrest]
        refine List.chain'_cons.mpr ⟨?_, hchain⟩
        rw [List.drop_take, List.take_take]
        norm_num [chunk_size, chunk_overlap]

/-- C8: during index construction every loaded document is split (by
`splitText`, which `index_documents` applies to each loaded document with the
source's configured `chunk_size = 1000` and `chunk_overlap = 200`) into
chunks of at most `chunk_size` characters, and each chunk shares its final
`chunk_overlap` characters with the head of its successor. -/
theorem splitText_chunk_bounds (t : List Char) :
    (∀ c ∈ splitText t, c.length ≤ chunk_size) ∧
    List.Chain' (fun a b =>
      a.drop (chunk_size - chunk_overlap) = b.take chunk_overlap)
      (splitText t) := by
  have h : t.length ≤ chunk_size + (chunk_size - chunk_overlap) * t.length := by
    simp only [chunk_size, chunk_overlap]
    omega
  exact ⟨fun c hc => splitTextGo_length_le t.length t h c hc,
         splitTextGo_chain t.length t h⟩

/-- C8 witness: a concrete two-character document is one chunk of length
within the bound. -/
theorem splitText_chunk_bounds_witness :
    (['a', 'b'] ∈ splitText ['a', 'b']) ∧
    (['a', 'b'] : List Char).length ≤ chunk_size :=
  ⟨by decide, (splitText_chunk_bounds ['a', 'b']).1 ['a', 'b'] (by decide)⟩

/-- Which extraction pass produced a candidate metric. -/
inductive MetricSource where
  | regulatory : MetricSource
  | framework : MetricSource
deriving DecidableEq

/-- Modelled from the spec: a Candidate Metric as §3 defines it, already
categorized (§4.3 Step 1).  The consolidation itself is performed by the
`consolidation_agent` LLM prompted by `consolidation_task` in
`ESGAnalysisCrew._create_tasks`; no merge algorithm exists in the source, so
the merge is modelled from the spec's words. -/
structure CandidateMetric where
  name : String
  description : String
  unit : String
  source : MetricSource
  category : String
  subcategory : String
deriving DecidableEq

/-- Case-insensitive name normalisation for de-duplication. -/
def lowerName (s : String) : List Char := s.toList.map Char.toLower

/-- Modelled from the spec: two candidates describe the same metric when
they share category and subcategory and their names match
case-insensitively. -/
def sameMetric (a b : CandidateMetric) : Prop :=
  a.category = b.category ∧ a.subcategory = b.subcategory ∧
    lowerName a.name = lowerName b.name

instance (a b : CandidateMetric) : Decidable (sameMetric a b) := by
  unfold sameMetric
  infer_instance

/-- Modelled from the spec: the merge policy of §4.3 Step 2 — prefer the
entry with a non-empty unit; when both units are non-empty and differ, keep
the regulatory-sourced unit; concatenate distinct non-empty descriptions.
The first-seen entry supplies name, category, subcategory. -/
def mergeMetric (a b : CandidateMetric) : CandidateMetric :=
  { a with
    unit :=
      if a.unit ≠ "" ∧ b.unit ≠ "" then
        if a.unit = b.unit then a.unit
        else if a.source = MetricSource.regulatory then a.unit
        else if b.source = MetricSource.regulatory then b.unit
        else a.unit
      else if a.unit ≠ "" then a.unit
      else b.unit
    description :=
      if b.description = "" ∨ b.description = a.description then a.description
      else if a.description = "" then b.description
      else a.description ++ "; " ++ b.description }

/-- Insert one candidate into the accumulated taxonomy: merge it into the
first entry it duplicates, otherwise append it (first-seen order, §4.3
Step 3). -/
def insertCandidate : List CandidateMetric → CandidateMetric → List CandidateMetric
  | [], c => [c]
  | m :: ms, c =>
      if sameMetric m c then mergeMetric m c :: ms
      else m :: insertCandidate ms c

/-- Modelled from the spec: `consolidate` folds the regulatory candidates
(first, as regulatory precedence and the task order dictate) and then the
framework candidates into a de-duplicated metric list. -/
def consolidate (regulatory framework : List CandidateMetric) :
    List CandidateMetric :=
  (regulatory ++ framework).foldl insertCandidate []

/-- C2: consolidating a regulatory candidate and a framework candidate that
share category and subcategory and whose names are equal case-insensitively
yields exactly one merged metric, named per the regulatory (first-seen)
casing; its unit prefers the non-empty unit and, when both are non-empty and
differ, is the regulatory one (always `a.unit` unless `a.unit` is empty);
distinct non-empty descriptions are concatenated. -/
theorem consolidate_merges_pair (a b : CandidateMetric)
    (ha : a.source = MetricSource.regulatory)
    (_hb : b.source = MetricSource.framework)
    (hcat : a.category = b.category)
    (hsub : a.subcategory = b.subcategory)
    (hname : lowerName a.name = lowerName b.name) :
    consolidate [a] [b] = [mergeMetric a b] ∧
    (mergeMetric a b).name = a.name ∧
    (mergeMetric a b).unit = (if a.unit = "" then b.unit else a.unit) ∧
    (a.description ≠ "" → b.description ≠ "" →
      a.description ≠ b.description →
      (mergeMetric a b).description = a.description ++ "; " ++ b.description) := by
  have hsame : sameMetric a b := ⟨hcat, hsub, hname⟩
  refine ⟨?_, rfl, ?_, ?_⟩
  · simp [consolidate, insertCandidate, hsame]
  · by_cases haU : a.unit = ""
    · simp [mergeMetric, haU]
    · by_cases hbU : b.unit = ""
      · simp [mergeMetric, haU, hbU]
      · by_cases heq : a.unit = b.unit
        · simp [mergeMetric, haU, hbU, heq]
        · simp [mergeMetric, haU, hbU, heq, ha]
  · intro hda hdb hne
    simp [mergeMetric, hdb, hda, Ne.symm hne]

/-- C2 witness: the spec's example.  Regulatory `Scope 1 Emissions`
(`tCO2e`) and framework `scope 1 emissions` (empty unit) in
Environmental/Emissions consolidate to one metric with the regulatory casing
and unit `tCO2e`. -/
theorem consolidate_merges_pair_witness :
    consolidate
        [⟨"Scope 1 Emissions", "", "tCO2e", MetricSource.regulatory,
          "Environmental", "Emissions"⟩]
        [⟨"scope 1 emissions", "", "", MetricSource.framework,
          "Environmental", "Emissions"⟩] =
      [mergeMetric
        ⟨"Scope 1 Emissions", "", "tCO2e", MetricSource.regulatory,
          "Environmental", "Emissions"⟩
        ⟨"scope 1 emissions", "", "", MetricSource.framework,
          "Environmental", "Emissions"⟩] ∧
    (mergeMetric
        ⟨"Scope 1 Emissions", "", "tCO2e", MetricSource.regulatory,
          "Environmental", "Emissions"⟩
        ⟨"scope 1 emissions", "", "", MetricSource.framework,
          "Environmental", "Emissions"⟩).name = "Scope 1 Emissions" ∧
    (mergeMetric
        ⟨"Scope 1 Emissions", "", "tCO2e", MetricSource.regulatory,
          "Environmental", "Emissions"⟩
        ⟨"scope 1 emissions", "", "", MetricSource.framework,
          "Environmental", "Emissions"⟩).unit = "tCO2e" :=
  by
  have h := consolidate_merges_pair
    ⟨"Scope 1 Emissions", "", "tCO2e", MetricSource.regulatory,
      "Environmental", "Emissions"⟩
    ⟨"scope 1 emissions", "", "", MetricSource.framework,
      "Environmental", "Emissions"⟩
    rfl rfl rfl rfl (by decide)
  exact ⟨h.1, h.2.1, h.2.2.1⟩

/-- Modelled from the spec: the retrieval preorder of §4.1 — the
nearest-neighbour search itself is implemented by the external Chroma
vector store (`self.vectorstore.similarity_search(query, k=k)`), not in this
repository.  An indexed chunk `a` ranks before `b` when it is more similar
to the query, or equally similar and earlier in the corpus (stable tie
break).  `sim` is the query-fixed similarity given by the external embedding
capability. -/
def keyLE (sim : List Char → Int) (a b : Nat × List Char) : Prop :=
  sim b.2 < sim a.2 ∨ (sim a.2 = sim b.2 ∧ a.1 ≤ b.1)

instance (sim : List Char → Int) : DecidableRel (keyLE sim) := fun a b => by
  unfold keyLE
  infer_instance

instance (sim : List Char → Int) :
    IsTotal (Nat × List Char) (keyLE sim) := by
  constructor
  intro a b
  unfold keyLE
  omega

instance (sim : List Char → Int) :
    IsTrans (Nat × List Char) (keyLE sim) := by
  constructor
  intro a b c hab hbc
  unfold keyLE at hab hbc ⊢
  omega

/-- Modelled from the spec: `retrieve(handle, query, k)` — the chunks of the
corpus paired with their corpus position, ranked by decreasing similarity
with stable tie break, truncated to `k`. -/
def similaritySearch (sim : List Char → Int) (corpus : List (List Char))
    (k : Nat) : List (Nat × List Char) :=
  (corpus.enum.insertionSort (keyLE sim)).take k

/-- The page contents of the retrieved chunks joined by blank lines, as
`DocumentIndexer.search` in `src/utils/document_loader.py` returns them. -/
def joinChunks : List (List Char) → List Char
  | [] => []
  | [c] => c
  | c :: cs => c ++ ('\n' :: '\n' :: joinChunks cs)

/-- `DocumentIndexer.search` from `src/utils/document_loader.py`:
`similarity_search` followed by joining the chunk contents with `"\n\n"`. -/
def DocumentIndexer.search (sim : List Char → Int) (store : Store)
    (k : Nat) : List Char :=
  joinChunks ((similaritySearch sim store.chunks k).map Prod.snd)

theorem similaritySearch_perm (sim : List Char → Int)
    (corpus : List (List Char)) :
    (corpus.enum.insertionSort (keyLE sim)).Perm corpus.enum :=
  List.perm_insertionSort _ _

/-- C3: for every similarity function, corpus and `k`, retrieval returns
`min k |corpus|` indexed chunks (fewer than `k` when the corpus is smaller;
the function is total, so it never raises), ordered by strictly decreasing
similarity with ties broken by increasing corpus position; every returned
entry is a corpus chunk at its corpus position, no entry repeats, and every
returned chunk is at least as similar as every corpus chunk left out. -/
theorem retrieve_top_k (sim : List Char → Int) (corpus : List (List Char))
    (k : Nat) :
    (similaritySearch sim corpus k).length = min k corpus.length ∧
    (similaritySearch sim corpus k).Pairwise
      (fun a b => sim b.2 < sim a.2 ∨ (sim a.2 = sim b.2 ∧ a.1 < b.1)) ∧
    (∀ e ∈ similaritySearch sim corpus k, e ∈ corpus.enum) ∧
    (similaritySearch sim corpus k).Nodup ∧
    (∀ a ∈ similaritySearch sim corpus k, ∀ b ∈ corpus.enum,
      b ∉ similaritySearch sim corpus k → sim b.2 ≤ sim a.2) := by
  have hperm := similaritySearch_perm sim corpus
  have hsorted : (corpus.enum.insertionSort (keyLE sim)).Sorted (keyLE sim) :=
    List.sorted_insertionSort _ _
  have htake : (similaritySearch sim corpus k).Sublist
      (corpus.enum.insertionSort (keyLE sim)) := List.take_sublist _ _
  have hfstnodup : ((corpus.enum.insertionSort (keyLE sim)).map Prod.fst).Nodup := by
    have := (hperm.map Prod.fst).nodup_iff
    exact this.mpr (List.nodup_enum_map_fst _)
  refine ⟨?_, ?_, ?_, ?_, ?_⟩
  · rw [similaritySearch, List.length_take, hperm.length_eq, List.enum_length]
  · have hpair : (similaritySearch sim corpus k).Pairwise (keyLE sim) :=
      hsorted.sublist htake
    have hne : (similaritySearch sim corpus k).Pairwise
        (fun a b => a.1 ≠ b.1) := by
      rw [← List.pairwise_map (f := Prod.fst)]
      exact ((hfstnodup.sublist (htake.map Prod.fst)) : _)
    refine (hpair.and hne).imp ?_
    intro a b hab
    obtain ⟨hk, hne⟩ := hab
    unfold keyLE at hk
    omega
  · intro e he
    exact hperm.mem_iff.mp (htake.subset he)
  · have : (corpus.enum.insertionSort (keyLE sim)).Nodup :=
      hperm.nodup_iff.mpr (List.Nodup.of_map Prod.fst (List.nodup_enum_map_fst _))
    exact this.sublist htake
  · intro a ha b hb hnb
    have hbS : b ∈ corpus.enum.insertionSort (keyLE sim) :=
      hperm.mem_iff.mpr hb
    have hsplit := List.take_append_drop k (corpus.enum.insertionSort (keyLE sim))
    have hbdrop : b ∈ (corpus.enum.insertionSort (keyLE sim)).drop k := by
      rcases List.mem_append.mp (by rw [hsplit]; exact hbS) with h | h
      · exact absurd h hnb
      · exact h
    have hpairS := hsorted
    rw [← hsplit] at hpairS
    have hrel := (List.pairwise_append.mp hpairS).2.2 a ha b hbdrop
    unfold keyLE at hrel
    omega

/-- C3 witness: a concrete 3-chunk corpus with the query most similar to
chunk `b`.  Retrieval with `k = 2` keeps `(1, b)` and leaves out `(2, c)`,
and the left-out chunk is no more similar than the kept one. -/
theorem retrieve_top_k_witness :
    ((1, ['b']) ∈ similaritySearch
        (fun c => if c = ['b'] then (5 : Int) else 3) [['a'], ['b'], ['c']] 2) ∧
    ((2, ['c']) ∈ ([['a'], ['b'], ['c']] : List (List Char)).enum) ∧
    ((2, ['c']) ∉ similaritySearch
        (fun c => if c = ['b'] then (5 : Int) else 3) [['a'], ['b'], ['c']] 2) ∧
    (fun c => if c = ['b'] then (5 : Int) else 3) ['c'] ≤
      (fun c => if c = ['b'] then (5 : Int) else 3) ['b'] :=
  ⟨by decide, by decide, by decide,
   (retrieve_top_k (fun c => if c = ['b'] then (5 : Int) else 3)
       [['a'], ['b'], ['c']] 2).2.2.2.2
     (1, ['b']) (by decide) (2, ['c']) (by decide) (by decide)⟩
